import Mathlib

/-
Verification of the clay client-and-cache layer (src/clay/gp.py) against its
natural-language specification.

The Python source is shallowly embedded:
- Python values that may be None are Option values; Python truthiness of a
  string-or-None value (None and the empty string are falsy) is the function
  truthy below.
- Python exceptions are modelled with Except PyErr; a function that may raise
  returns Except PyErr _.
- The remote service boundary (gmusicapi Mobileclient) is out of scope of the
  repository; each remote call is passed in as an explicit parameter of type
  Except PyErr _ (it either returns a structured response or raises).
- The GP singleton's mutable state (cached_tracks, cached_playlists) is the
  explicit record GPState, and each method is a state-passing function.
  Events fired via EventHook are collected in an output list.
- Python object identity (needed for the no-aliasing part of playlist
  reconciliation) is modelled with an explicit heap: a list of Track cells
  addressed by index.  Heap-level definitions carry an H suffix.
-/

namespace Clay

/-- Python exception kinds that the embedded code can raise.
exception covers the generic Exception raised by Track.from_data and the
opaque errors of the remote boundary; typeError is iterating None
(gp.py line 465 with cached_tracks = None); attributeError is calling
a method on None (gp.py line 285, None.copy()); keyError is a missing
dictionary key in Track.from_data. -/
inductive PyErr where
  | exception : PyErr
  | typeError : PyErr
  | attributeError : PyErr
  | keyError : PyErr
  deriving DecidableEq, Repr

/-- Python truthiness of a string-or-None value: None and the empty string
are falsy, every other string is truthy. -/
def truthy (o : Option String) : Bool :=
  match o with
  | none => false
  | some s => !s.isEmpty

/-- Track model, gp.py lines 79-85: fields id_, track_id, store_id (each a
string or None), title, artist, duration. -/
structure Track where
  id_ : Option String
  track_id : Option String
  store_id : Option String
  title : String
  artist : String
  duration : Int
  deriving DecidableEq, Repr

/-- Raw track dictionary from the remote API as consumed by
Track.from_data (gp.py lines 122-141): a key that is absent maps to none.
The int conversion of durationMillis is abstracted by carrying the integer
value directly. -/
structure TrackData where
  id : Option String
  trackId : Option String
  storeId : Option String
  title : Option String
  artist : Option String
  durationMillis : Option Int
  deriving DecidableEq, Repr

/-- Track.from_data (gp.py lines 122-141), single-item case: raises
Exception when none of id, storeId, trackId is present; raises KeyError
when title, artist or durationMillis is missing; otherwise builds the
Track with id_ = data.get(id), track_id = data.get(trackId),
store_id = data.get(storeId). -/
def Track.from_data (d : TrackData) : Except PyErr Track :=
  if d.id.isNone && d.storeId.isNone && d.trackId.isNone then
    .error .exception
  else
    match d.title, d.artist, d.durationMillis with
    | some t, some a, some dur => .ok ⟨d.id, d.trackId, d.storeId, t, a, dur⟩
    | _, _, _ => .error .keyError

/-- Track.from_data with many=True (gp.py lines 128-129): a list
comprehension, so the first failing element aborts the whole conversion. -/
def tracksFromDataMany (ds : List TrackData) : Except PyErr (List Track) :=
  ds.mapM Track.from_data

/-- Track.copy (gp.py lines 143-154): a new Track built field by field. -/
def Track.copy (t : Track) : Track :=
  ⟨t.id_, t.track_id, t.store_id, t.title, t.artist, t.duration⟩

/-- Track.__eq__ (gp.py lines 100-107), transcribed exactly: the branches
test truthiness of the LEFT operand's fields in the order track_id,
store_id, id_, and the id_ branch compares self.store_id with other.id_
(the source text of line 106). -/
def Track.eq (self other : Track) : Bool :=
  if truthy self.track_id then self.track_id == other.track_id
  else if truthy self.store_id then self.store_id == other.store_id
  else if truthy self.id_ then self.store_id == other.id_
  else false

/-- Membership test of gp.py line 466: any_id in (track.id_, track.store_id,
track.track_id).  Python in on a tuple is equality against each component;
any_id is a string, so a None field never matches. -/
def Track.matchesId (t : Track) (any_id : String) : Bool :=
  t.id_ == some any_id || t.store_id == some any_id || t.track_id == some any_id

/-- Playlist model, gp.py lines 243-246. -/
structure Playlist where
  playlist_id : String
  name : String
  tracks : List Track
  deriving DecidableEq, Repr

/-- Raw playlist-track entry as consumed by
Playlist.playlist_items_to_tracks (gp.py lines 270-294): it either carries
an embedded track dictionary (key track) or only the bare trackId. -/
structure PlaylistEntry where
  track : Option TrackData
  trackId : String
  deriving DecidableEq, Repr

/-- Raw playlist dictionary as consumed by Playlist.from_data
(gp.py lines 255-268). -/
structure PlaylistData where
  id : String
  name : String
  tracks : List PlaylistEntry
  deriving DecidableEq, Repr

/-- State of the GP singleton (gp.py lines 373-377): the two caches, each a
list or None. -/
structure GPState where
  cached_tracks : Option (List Track)
  cached_playlists : Option (List Playlist)
  deriving DecidableEq, Repr

/-- Events fired by the GP singleton through its EventHook fields:
caches_invalidated (gp.py line 399) and auth_state_changed with the new
boolean state (gp.py line 411). -/
inductive Event where
  | caches_invalidated : Event
  | auth_state_changed : Bool → Event
  deriving DecidableEq, Repr

/-- GP.get_track_by_id (gp.py lines 461-468): a for-loop over
self.cached_tracks returning the first track one of whose three id fields
equals any_id, and None after the loop.  When cached_tracks is None the
for-loop raises TypeError (NoneType is not iterable). -/
def get_track_by_id (cached_tracks : Option (List Track)) (any_id : String) :
    Except PyErr (Option Track) :=
  match cached_tracks with
  | none => .error .typeError
  | some ts => .ok (ts.find? (fun t => t.matchesId any_id))

/-- Playlist.playlist_items_to_tracks (gp.py lines 270-294), value-level
form (the heap-level form below adds object identity).  For an entry with
embedded track data: Track.from_data.  For a bare entry:
GP.get().get_track_by_id(trackId).copy() followed by the assignment
track.track_id = trackId; when the lookup returns None, .copy() raises
AttributeError.  Any exception aborts the whole conversion. -/
def playlist_items_to_tracks (cached_tracks : Option (List Track)) :
    List PlaylistEntry → Except PyErr (List Track)
  | [] => .ok []
  | e :: rest =>
      match (match e.track with
             | some d => Track.from_data d
             | none =>
                 match get_track_by_id cached_tracks e.trackId with
                 | .error er => .error er
                 | .ok none => .error .attributeError
                 | .ok (some t) =>
                     .ok { t.copy with track_id := some e.trackId }) with
      | .error er => .error er
      | .ok t =>
          match playlist_items_to_tracks cached_tracks rest with
          | .error er => .error er
          | .ok ts => .ok (t :: ts)

/-- Playlist.from_data (gp.py lines 255-268), single-item case. -/
def Playlist.from_data (cached_tracks : Option (List Track))
    (pd : PlaylistData) : Except PyErr Playlist :=
  match playlist_items_to_tracks cached_tracks pd.tracks with
  | .error er => .error er
  | .ok ts => .ok ⟨pd.id, pd.name, ts⟩

/-- Playlist.from_data with many=True (gp.py lines 261-262). -/
def playlistsFromDataMany (cached_tracks : Option (List Track))
    (pds : List PlaylistData) : Except PyErr (List Playlist) :=
  pds.mapM (Playlist.from_data cached_tracks)

/-- GP.invalidate_caches (gp.py lines 393-399): set both caches to None and
fire the caches_invalidated event. -/
def invalidate_caches (_st : GPState) : GPState × List Event :=
  (⟨none, none⟩, [Event.caches_invalidated])

/-- GP.login (gp.py lines 401-412).  The external samples of
mobile_client.is_authenticated() taken after logout and after the remote
login call, and the boolean returned by mobile_client.login, are passed as
parameters (the remote boundary is out of scope; logout and the
authentication query are modelled as non-raising, and the two consecutive
reads of is_authenticated on lines 410-411 are assumed to agree).  The
method logs out, invalidates the caches (firing caches_invalidated),
captures prev_auth_state, performs the remote login and fires
auth_state_changed with the new state exactly when the state changed. -/
def login (authAfterLogout : Bool) (loginResult : Bool) (authAfterLogin : Bool)
    (_st : GPState) : Bool × GPState × List Event :=
  if authAfterLogout != authAfterLogin then
    (loginResult, ⟨none, none⟩,
      [Event.caches_invalidated, Event.auth_state_changed authAfterLogin])
  else
    (loginResult, ⟨none, none⟩, [Event.caches_invalidated])

/-- Fetch branch of GP.get_all_tracks (gp.py lines 423-425):
mobile_client.get_all_songs() (which may raise), then
Track.from_data(data, True) (which may raise), then the assignment to
cached_tracks.  The boolean in the result records that a remote fetch was
issued. -/
def fetch_all_tracks (remote : Except PyErr (List TrackData)) (st : GPState) :
    Except PyErr (List Track) × GPState × Bool :=
  match remote with
  | .error e => (.error e, st, true)
  | .ok data =>
      match tracksFromDataMany data with
      | .error e => (.error e, st, true)
      | .ok ts => (.ok ts, { st with cached_tracks := some ts }, true)

/-- GP.get_all_tracks (gp.py lines 416-425): the guard on line 421 is the
Python truthiness test if self.cached_tracks, so None and the empty list
both fall through to the fetch branch. -/
def get_all_tracks (remote : Except PyErr (List TrackData)) (st : GPState) :
    Except PyErr (List Track) × GPState × Bool :=
  match st.cached_tracks with
  | some ts => if ts.isEmpty then fetch_all_tracks remote st else (.ok ts, st, false)
  | none => fetch_all_tracks remote st

/-- Build branch of GP.get_all_user_playlist_contents (gp.py lines
444-450): self.get_all_tracks() for its side effect on the cache, then the
remote playlist fetch, then Playlist.from_data(..., True) resolved against
the track cache left by get_all_tracks, then the assignment to
cached_playlists.  Any exception propagates and leaves cached_playlists
unassigned. -/
def build_playlists (remoteTracks : Except PyErr (List TrackData))
    (remotePlaylists : Except PyErr (List PlaylistData)) (st : GPState) :
    Except PyErr (List Playlist) × GPState :=
  let r1 := get_all_tracks remoteTracks st
  match r1.1 with
  | .error e => (.error e, r1.2.1)
  | .ok _ =>
      match remotePlaylists with
      | .error e => (.error e, r1.2.1)
      | .ok pds =>
          match playlistsFromDataMany r1.2.1.cached_tracks pds with
          | .error e => (.error e, r1.2.1)
          | .ok ps => (.ok ps, { r1.2.1 with cached_playlists := some ps })

/-- GP.get_all_user_playlist_contents (gp.py lines 437-450): the guard on
line 442 is the Python truthiness test if self.cached_playlists. -/
def get_all_user_playlist_contents (remoteTracks : Except PyErr (List TrackData))
    (remotePlaylists : Except PyErr (List PlaylistData)) (st : GPState) :
    Except PyErr (List Playlist) × GPState :=
  match st.cached_playlists with
  | some ps =>
      if ps.isEmpty then build_playlists remoteTracks remotePlaylists st
      else (.ok ps, st)
  | none => build_playlists remoteTracks remotePlaylists st

/-- GP.add_to_my_library (gp.py lines 479-486): the remote call
mobile_client.add_store_tracks (which may raise; the possible exception of
the track.id property access on line 483 is folded into the same error
case, with identical effect: propagate, touch nothing); on a truthy
result, invalidate both caches and fire the event. -/
def add_to_my_library (remoteResult : Except PyErr Bool) (st : GPState) :
    Except PyErr Bool × GPState × List Event :=
  match remoteResult with
  | .error e => (.error e, st, [])
  | .ok r =>
      if r then (.ok r, ⟨none, none⟩, [Event.caches_invalidated])
      else (.ok r, st, [])

/-- GP.remove_from_my_library (gp.py lines 488-495): same shape as
add_to_my_library with mobile_client.delete_songs as the remote call. -/
def remove_from_my_library (remoteResult : Except PyErr Bool) (st : GPState) :
    Except PyErr Bool × GPState × List Event :=
  match remoteResult with
  | .error e => (.error e, st, [])
  | .ok r =>
      if r then (.ok r, ⟨none, none⟩, [Event.caches_invalidated])
      else (.ok r, st, [])

/-- Inner function of the asynchronous decorator (gp.py lines 15-47): the
thread body runs the synchronous core and invokes the callback exactly
once, with (result, None, **extra) on normal return and with
(None, error, **extra) when the core raised; the except clause re-raises
nothing.  The list collects the callback invocations of one wrapped call,
each a triple (result, error, extra). -/
def asyncWrapperCalls {α β γ : Type} (func : α → Except PyErr β) (a : α)
    (extra : γ) : List (Option β × Option PyErr × γ) :=
  match func a with
  | .ok r => [(some r, none, extra)]
  | .error e => [(none, some e, extra)]

/-- Heap of Track cells: Python object identity for the no-aliasing claims
is modelled by addressing tracks through list indices. -/
abbrev Heap := List Track

/-- Placeholder track returned by out-of-range heap reads; the theorems
only read valid addresses. -/
def defaultTrack : Track := ⟨none, none, none, "", "", 0⟩

/-- Dereference a heap address. -/
def heapGet (h : Heap) (a : Nat) : Track :=
  h.getD a defaultTrack

/-- GP.get_track_by_id (gp.py lines 461-468) at heap level: the library
cache is a list of addresses of the cached Track objects, and the scan
returns the address of the first match. -/
def get_track_by_idH (h : Heap) (cache : List Nat) (any_id : String) :
    Option Nat :=
  cache.find? (fun a => (heapGet h a).matchesId any_id)

/-- Processing of one playlist entry by
Playlist.playlist_items_to_tracks (gp.py lines 279-293) at heap level.
Embedded data: Track.from_data allocates a fresh Track object.  Bare id:
the cache lookup yields the address of the cached Track, .copy() allocates
a fresh cell holding a field-by-field copy (gp.py lines 143-154), and the
assignment track.track_id = trackId on line 288 then mutates the fresh
cell in place.  A failed lookup makes .copy() raise AttributeError. -/
def stepH (cache : List Nat) (h : Heap) (e : PlaylistEntry) :
    Except PyErr (Heap × Nat) :=
  match e.track with
  | some d =>
      match Track.from_data d with
      | .error er => .error er
      | .ok t => .ok (h ++ [t], h.length)
  | none =>
      match get_track_by_idH h cache e.trackId with
      | none => .error .attributeError
      | some a0 =>
          let h1 := h ++ [(heapGet h a0).copy]
          let a1 := h.length
          let h2 := h1.set a1 { heapGet h1 a1 with track_id := some e.trackId }
          .ok (h2, a1)

/-- Playlist.playlist_items_to_tracks (gp.py lines 270-294) at heap level:
left-to-right processing, appending each produced address; any exception
aborts the whole conversion. -/
def playlist_items_to_tracksH (cache : List Nat) :
    Heap → List PlaylistEntry → Except PyErr (List Nat × Heap)
  | h, [] => .ok ([], h)
  | h, e :: rest =>
      match stepH cache h e with
      | .error er => .error er
      | .ok (h1, a1) =>
          match playlist_items_to_tracksH cache h1 rest with
          | .error er => .error er
          | .ok (as_, h2) => .ok (a1 :: as_, h2)

/-- One-directional cache dependency of the GP singleton: whenever the
playlist cache is populated (not None), the track cache is populated too. -/
def cacheInvariant (st : GPState) : Prop :=
  st.cached_playlists.isSome = true → st.cached_tracks.isSome = true

instance (st : GPState) : Decidable (cacheInvariant st) := by
  unfold cacheInvariant; infer_instance

/-- Sample track with track_id and store_id populated (the shape playlist
reconciliation produces for a store track that is also a library item). -/
def trackA : Track := ⟨none, some "t1", some "s1", "", "", 0⟩

/-- Sample track identified by store_id only. -/
def trackB : Track := ⟨none, none, some "s1", "", "", 0⟩

/-- Sample track identified by track_id only. -/
def trackC : Track := ⟨none, some "t9", none, "", "", 0⟩

/-- Sample track identified by library id only. -/
def trackD : Track := ⟨some "up1", none, none, "Up", "Someone", 5⟩

/-- Sample library track used by the heap-level reconciliation witness. -/
def libTrack : Track := ⟨some "lib1", none, some "X", "Song", "Artist", 1000⟩

/-- Sample raw track data accepted by Track.from_data. -/
def sampleData : TrackData :=
  ⟨some "id1", none, none, some "Title", some "Artist", some 1000⟩

/-- Sample synchronous core for the async-wrapper witnesses: raises on 0,
returns the successor otherwise. -/
def sampleCore (n : Nat) : Except PyErr Nat :=
  if n = 0 then .error .exception else .ok (n + 1)

/-- Sample delivered callback triple for the async-wrapper witnesses. -/
def sampleCall : Option Nat × Option PyErr × Bool := (some 2, none, true)

/-- Sample playlist response whose only entry references a track id absent
from the library cache. -/
def samplePlaylistData : PlaylistData := ⟨"pl1", "P", [⟨none, "unknown"⟩]⟩

/-- Projection of an event trace to the auth_state_changed firings. -/
def authEvents (evs : List Event) : List Event :=
  evs.filter (fun e => match e with
    | .auth_state_changed _ => true
    | _ => false)

end Clay

namespace Clay

/-- Reading below the length of the left part of an append is reading the
left part. -/
theorem getD_append_lt {α : Type} (l₁ l₂ : List α) (i : Nat) (d : α)
    (h : i < l₁.length) : (l₁ ++ l₂).getD i d = l₁.getD i d := by
  simp [List.getD, List.getElem?_append, h]

/-- Reading the freshly appended cell. -/
theorem getD_append_self {α : Type} (l : List α) (t d : α) :
    (l ++ [t]).getD l.length d = t := by
  simp [List.getD]

/-- Writing the freshly appended cell. -/
theorem set_append_len {α : Type} (l : List α) (x y : α) :
    (l ++ [x]).set l.length y = l ++ [y] := by
  simp [List.set_append]

/-- Writing one cell leaves every other cell unchanged. -/
theorem getD_set_ne {α : Type} (l : List α) (i j : Nat) (t d : α)
    (h : i ≠ j) : (l.set i t).getD j d = l.getD j d := by
  simp [List.getD, List.getElem?_set_ne h]

/-- Pointwise equal predicates find the same element. -/
theorem find?_ext {α : Type} (l : List α) (p q : α → Bool)
    (hpq : ∀ x ∈ l, p x = q x) : l.find? p = l.find? q := by
  induction l with
  | nil => rfl
  | cons a l ih =>
      have hpa : p a = q a := hpq a (List.mem_cons_self a l)
      cases hqa : q a
      · rw [List.find?_cons_of_neg _ (by simp [hpa, hqa]),
            List.find?_cons_of_neg _ (by simp [hqa])]
        exact ih (fun x hx => hpq x (List.mem_cons_of_mem a hx))
      · rw [List.find?_cons_of_pos _ (by simp [hpa, hqa]),
            List.find?_cons_of_pos _ hqa]

/-- Equality on optional strings is symmetric at the Bool level. -/
theorem optStr_beq_comm (a b : Option String) : (a == b) = (b == a) := by
  by_cases h : a = b
  · subst h; rfl
  · rw [beq_eq_false_iff_ne.mpr h, beq_eq_false_iff_ne.mpr (Ne.symm h)]

/-- Track.copy rebuilds every field, so as a value it is the identity (the
point of copying is object identity, visible only at heap level). -/
theorem Track.copy_eq (t : Track) : t.copy = t := rfl

/-- Cache scans are unaffected by heap growth that preserves the cached
cells. -/
theorem lookupH_stable (cache : List Nat) (h h1 : Heap) (x : String)
    (hb : ∀ c ∈ cache, c < h.length)
    (hp : ∀ i, i < h.length → heapGet h1 i = heapGet h i) :
    get_track_by_idH h1 cache x = get_track_by_idH h cache x :=
  find?_ext cache _ _ (fun c hc => by rw [hp c (hb c hc)])

/-- A successful cache scan returns an address from the cache. -/
theorem lookupH_mem (cache : List Nat) (h : Heap) (x : String) (a : Nat)
    (hl : get_track_by_idH h cache x = some a) : a ∈ cache :=
  List.mem_of_find?_eq_some hl

end Clay

namespace Clay

/-- Dereferencing the freshly appended cell. -/
theorem heapGet_append_self (h : Heap) (t : Track) :
    heapGet (h ++ [t]) h.length = t :=
  getD_append_self h t defaultTrack

/-- Dereferencing below the old length after an append. -/
theorem heapGet_append_lt (h l : List Track) (i : Nat) (hi : i < h.length) :
    heapGet (h ++ l) i = heapGet h i :=
  getD_append_lt h l i defaultTrack hi

/-- Dereferencing another cell after a write. -/
theorem heapGet_set_ne (h : Heap) (i j : Nat) (t : Track) (hij : i ≠ j) :
    heapGet (h.set i t) j = heapGet h j :=
  getD_set_ne h i j t defaultTrack hij

/-- Normal form of stepH on an entry with embedded track data. -/
theorem stepH_full (cache : List Nat) (h : Heap) (e : PlaylistEntry)
    (d : TrackData) (t : Track) (he : e.track = some d)
    (hf : Track.from_data d = .ok t) :
    stepH cache h e = .ok (h ++ [t], h.length) := by
  simp [stepH, he, hf]

/-- Normal form of stepH on a bare entry whose id is found in the cache:
allocate a copy of the cached track and overwrite its track_id in place. -/
theorem stepH_bare (cache : List Nat) (h : Heap) (e : PlaylistEntry)
    (a0 : Nat) (he : e.track = none)
    (hl : get_track_by_idH h cache e.trackId = some a0) :
    stepH cache h e
      = .ok (h ++ [{ heapGet h a0 with track_id := some e.trackId }],
             h.length) := by
  simp only [stepH, he, hl]
  rw [heapGet_append_self, Track.copy_eq, set_append_len]

/-- Effect of processing one playlist entry: the produced address is the
old heap length (a fresh cell), the heap grows by one, every old cell is
unchanged, and for a bare entry the fresh cell holds the looked-up cached
track with its track_id overwritten by the entry's trackId. -/
theorem stepH_spec (cache : List Nat) (h : Heap) (e : PlaylistEntry)
    (h2 : Heap) (a1 : Nat) (hs : stepH cache h e = .ok (h2, a1)) :
    a1 = h.length ∧ h2.length = h.length + 1 ∧
    (∀ i, i < h.length → heapGet h2 i = heapGet h i) ∧
    (e.track = none →
      ∃ a0, get_track_by_idH h cache e.trackId = some a0 ∧
        heapGet h2 a1 = { heapGet h a0 with track_id := some e.trackId }) := by
  cases he : e.track with
  | some d =>
      cases hf : Track.from_data d with
      | error er => simp [stepH, he, hf] at hs
      | ok t =>
          rw [stepH_full cache h e d t he hf] at hs
          have hpair : h ++ [t] = h2 ∧ h.length = a1 := by simpa using hs
          obtain ⟨hh2, ha1⟩ := hpair
          subst hh2; subst ha1
          refine ⟨rfl, by simp, ?_, ?_⟩
          · intro i hi; exact heapGet_append_lt h [t] i hi
          · intro hcontra; exact Option.noConfusion hcontra
  | none =>
      cases hl : get_track_by_idH h cache e.trackId with
      | none => simp [stepH, he, hl] at hs
      | some a0 =>
          rw [stepH_bare cache h e a0 he hl] at hs
          have hpair :
              h ++ [{ heapGet h a0 with track_id := some e.trackId }] = h2
              ∧ h.length = a1 := by simpa using hs
          obtain ⟨hh2, ha1⟩ := hpair
          subst hh2; subst ha1
          refine ⟨rfl, by simp, ?_, ?_⟩
          · intro i hi; exact heapGet_append_lt h _ i hi
          · intro _
            exact ⟨a0, rfl, heapGet_append_self h _⟩

end Clay

namespace Clay

/-- Global effect of heap-level playlist reconciliation: one address per
entry in order, every produced address is fresh (at or above the initial
heap length), every initial cell is untouched, and each bare entry's
address holds the copy of the looked-up cached track with its track_id
overwritten. -/
theorem runH_spec (cache : List Nat) (entries : List PlaylistEntry) :
    ∀ (h : Heap) (res : List Nat) (hFin : Heap),
      (∀ c ∈ cache, c < h.length) →
      playlist_items_to_tracksH cache h entries = .ok (res, hFin) →
      res.length = entries.length ∧
      h.length ≤ hFin.length ∧
      (∀ i, i < h.length → heapGet hFin i = heapGet h i) ∧
      (∀ (j a : Nat), res[j]? = some a → h.length ≤ a ∧ a < hFin.length) ∧
      (∀ (j : Nat) (e : PlaylistEntry) (a : Nat),
         entries[j]? = some e → e.track = none → res[j]? = some a →
         ∃ a0, get_track_by_idH h cache e.trackId = some a0 ∧
           heapGet hFin a = { heapGet h a0 with track_id := some e.trackId }) := by
  induction entries with
  | nil =>
      intro h res hFin _ hrun
      simp only [playlist_items_to_tracksH] at hrun
      have hpair : [] = res ∧ h = hFin := by simpa using hrun
      obtain ⟨hres, hfin⟩ := hpair
      subst hres; subst hfin
      refine ⟨rfl, le_refl _, fun i _ => rfl, ?_, ?_⟩
      · intro j a hj; simp at hj
      · intro j e a hj _ ha; simp at hj
  | cons e rest ih =>
      intro h res hFin hb hrun
      cases hs : stepH cache h e with
      | error er =>
          simp only [playlist_items_to_tracksH, hs] at hrun
          exact Except.noConfusion hrun
      | ok p =>
          obtain ⟨h1, a1⟩ := p
          cases hr : playlist_items_to_tracksH cache h1 rest with
          | error er =>
              simp only [playlist_items_to_tracksH, hs, hr] at hrun
              exact Except.noConfusion hrun
          | ok q =>
              obtain ⟨as_, h2⟩ := q
              simp only [playlist_items_to_tracksH, hs, hr] at hrun
              have hpair : a1 :: as_ = res ∧ h2 = hFin := by simpa using hrun
              obtain ⟨hres, hfin⟩ := hpair
              subst hres; subst hfin
              obtain ⟨ha1, hlen1, hpres1, hcontent1⟩ :=
                stepH_spec cache h e h1 a1 hs
              have hb1 : ∀ c ∈ cache, c < h1.length := by
                intro c hc; have := hb c hc; omega
              obtain ⟨ihlen, ihle, ihpres, ihaddr, ihcontent⟩ :=
                ih h1 as_ h2 hb1 hr
              refine ⟨by simp [ihlen], by omega, ?_, ?_, ?_⟩
              · intro i hi
                rw [ihpres i (by omega), hpres1 i hi]
              · intro j a hj
                cases j with
                | zero =>
                    simp only [List.getElem?_cons_zero, Option.some_inj] at hj
                    subst hj
                    constructor
                    · omega
                    · omega
                | succ j =>
                    simp only [List.getElem?_cons_succ] at hj
                    have := ihaddr j a hj
                    omega
              · intro j e' a hj he' ha
                cases j with
                | zero =>
                    simp only [List.getElem?_cons_zero, Option.some_inj] at hj ha
                    subst hj; subst ha
                    obtain ⟨a0, hl0, hcell⟩ := hcontent1 he'
                    exact ⟨a0, hl0, by rw [ihpres a1 (by omega), hcell]⟩
                | succ j =>
                    simp only [List.getElem?_cons_succ] at hj ha
                    obtain ⟨a0, hl1, hcell⟩ := ihcontent j e' a hj he' ha
                    have hstable :=
                      lookupH_stable cache h h1 e'.trackId hb hpres1
                    have hl0 : get_track_by_idH h cache e'.trackId = some a0 := by
                      rw [hstable] at hl1; exact hl1
                    have hmem := lookupH_mem cache h e'.trackId a0 hl0
                    have hcold : heapGet h1 a0 = heapGet h a0 :=
                      hpres1 a0 (hb a0 hmem)
                    exact ⟨a0, hl0, by rw [hcell, hcold]⟩

end Clay

namespace Clay

/-- When get_all_tracks returns a track list, that list is exactly what is
left in the track cache. -/
theorem get_all_tracks_ok (remote : Except PyErr (List TrackData))
    (st : GPState) (ts : List Track)
    (hok : (get_all_tracks remote st).1 = .ok ts) :
    (get_all_tracks remote st).2.1.cached_tracks = some ts := by
  cases hc : st.cached_tracks with
  | none =>
      cases remote with
      | error e => simp [get_all_tracks, fetch_all_tracks, hc] at hok
      | ok data =>
          cases hm : tracksFromDataMany data with
          | error e2 => simp [get_all_tracks, fetch_all_tracks, hc, hm] at hok
          | ok ts2 =>
              simp [get_all_tracks, fetch_all_tracks, hc, hm] at hok ⊢
              simp [hok]
  | some ts0 =>
      cases ts0 with
      | nil =>
          cases remote with
          | error e => simp [get_all_tracks, fetch_all_tracks, hc] at hok
          | ok data =>
              cases hm : tracksFromDataMany data with
              | error e2 =>
                  simp [get_all_tracks, fetch_all_tracks, hc, hm] at hok
              | ok ts2 =>
                  simp [get_all_tracks, fetch_all_tracks, hc, hm] at hok ⊢
                  simp [hok]
      | cons t rest =>
          simp [get_all_tracks, hc] at hok ⊢
          simp [hok]

/-- get_all_tracks never touches the playlist cache. -/
theorem get_all_tracks_playlists_eq (remote : Except PyErr (List TrackData))
    (st : GPState) :
    (get_all_tracks remote st).2.1.cached_playlists = st.cached_playlists := by
  cases hc : st.cached_tracks with
  | none =>
      cases remote with
      | error e => simp [get_all_tracks, fetch_all_tracks, hc]
      | ok data =>
          cases hm : tracksFromDataMany data with
          | error e2 => simp [get_all_tracks, fetch_all_tracks, hc, hm]
          | ok ts2 => simp [get_all_tracks, fetch_all_tracks, hc, hm]
  | some ts0 =>
      cases ts0 with
      | nil =>
          cases remote with
          | error e => simp [get_all_tracks, fetch_all_tracks, hc]
          | ok data =>
              cases hm : tracksFromDataMany data with
              | error e2 => simp [get_all_tracks, fetch_all_tracks, hc, hm]
              | ok ts2 => simp [get_all_tracks, fetch_all_tracks, hc, hm]
      | cons t rest => simp [get_all_tracks, hc]

/-- get_all_tracks never clears a populated track cache. -/
theorem get_all_tracks_isSome (remote : Except PyErr (List TrackData))
    (st : GPState) (hs : st.cached_tracks.isSome = true) :
    (get_all_tracks remote st).2.1.cached_tracks.isSome = true := by
  cases hc : st.cached_tracks with
  | none => rw [hc] at hs; cases hs
  | some ts0 =>
      cases ts0 with
      | nil =>
          cases remote with
          | error e => simp [get_all_tracks, fetch_all_tracks, hc]
          | ok data =>
              cases hm : tracksFromDataMany data with
              | error e2 => simp [get_all_tracks, fetch_all_tracks, hc, hm]
              | ok ts2 => simp [get_all_tracks, fetch_all_tracks, hc, hm]
      | cons t rest => simp [get_all_tracks, hc]

end Clay

namespace Clay

/-- Claim C2: for every operation wrapped by the asynchronous wrapper and
every invocation of the wrapped variant, the callback is invoked exactly
once; with (result, None) plus the extra keyword arguments when the
synchronous core returns a value, and with (None, error) plus the extra
keyword arguments when the core raises, in which case the exception does
not propagate (asyncWrapperCalls is total: it returns a callback trace,
never an exception, for every core). -/
theorem claim2_async_callback {α β γ : Type} (func : α → Except PyErr β)
    (a : α) (extra : γ) :
    (asyncWrapperCalls func a extra).length = 1 ∧
    (∀ r, func a = .ok r →
       asyncWrapperCalls func a extra = [(some r, none, extra)]) ∧
    (∀ e, func a = .error e →
       asyncWrapperCalls func a extra = [(none, some e, extra)]) := by
  cases hf : func a with
  | ok r =>
      refine ⟨by simp [asyncWrapperCalls, hf], ?_, ?_⟩
      · intro r0 h0
        injection h0 with h1
        subst h1
        simp [asyncWrapperCalls, hf]
      · intro e0 h0
        exact Except.noConfusion h0
  | error e =>
      refine ⟨by simp [asyncWrapperCalls, hf], ?_, ?_⟩
      · intro r0 h0
        exact Except.noConfusion h0
      · intro e0 h0
        injection h0 with h1
        subst h1
        simp [asyncWrapperCalls, hf]

/-- Witness for claim C2 at the concrete core sampleCore: invocation at 1
delivers (2, None); invocation at 0 delivers (None, exception). -/
theorem claim2_witness :
    sampleCore 1 = .ok 2 ∧
    asyncWrapperCalls sampleCore 1 true = [(some 2, none, true)] ∧
    sampleCore 0 = .error .exception ∧
    asyncWrapperCalls sampleCore 0 true = [(none, some .exception, true)] :=
  ⟨rfl, (claim2_async_callback sampleCore 1 true).2.1 2 rfl,
   rfl, (claim2_async_callback sampleCore 0 true).2.2 .exception rfl⟩

/-- Claim C7: every (result, error) pair delivered to the callback of an
asynchronous operation has exactly one null component: (None, error) when
the core raised and (result, None) with a present result otherwise, never
both null and never both non-null. -/
theorem claim7_exactly_one {α β γ : Type} (func : α → Except PyErr β)
    (a : α) (extra : γ) (c : Option β × Option PyErr × γ)
    (hc : c ∈ asyncWrapperCalls func a extra) :
    ((c.1.isSome = true ∧ c.2.1 = none) ∨
     (c.1 = none ∧ c.2.1.isSome = true)) ∧
    (∀ r, func a = .ok r → c = (some r, none, extra)) ∧
    (∀ e, func a = .error e → c = (none, some e, extra)) := by
  cases hf : func a with
  | ok r =>
      simp only [asyncWrapperCalls, hf, List.mem_singleton] at hc
      subst hc
      refine ⟨Or.inl ⟨rfl, rfl⟩, ?_, ?_⟩
      · intro r0 h0
        injection h0 with h1
        subst h1
        rfl
      · intro e0 h0
        exact Except.noConfusion h0
  | error e =>
      simp only [asyncWrapperCalls, hf, List.mem_singleton] at hc
      subst hc
      refine ⟨Or.inr ⟨rfl, rfl⟩, ?_, ?_⟩
      · intro r0 h0
        exact Except.noConfusion h0
      · intro e0 h0
        injection h0 with h1
        subst h1
        rfl

/-- Witness for claim C7 at the concrete core sampleCore and the delivered
triple sampleCall. -/
theorem claim7_witness :
    sampleCall ∈ asyncWrapperCalls sampleCore 1 true ∧
    ((sampleCall.1.isSome = true ∧ sampleCall.2.1 = none) ∨
     (sampleCall.1 = none ∧ sampleCall.2.1.isSome = true)) :=
  have hm : sampleCall ∈ asyncWrapperCalls sampleCore 1 true := by
    simp [asyncWrapperCalls, sampleCore, sampleCall]
  ⟨hm, (claim7_exactly_one sampleCore 1 true sampleCall hm).1⟩

end Clay

namespace Clay

/-- Counterexample to claim C3: Track equality as implemented is not
symmetric.  trackA carries track_id t1 and store_id s1, trackB carries
only store_id s1; comparing trackA with trackB is False (track-id branch)
while comparing trackB with trackA is True (store-id branch), so the
highest-priority-identifier characterisation also fails for this pair. -/
theorem claim3_counterexample :
    Track.eq trackA trackB = false ∧ Track.eq trackB trackA = true := by
  constructor <;> rfl

/-- Claim C3 amended: equality is symmetric and decides by identifier
match only when both operands have the same kind of highest-priority
populated identifier: when both track ids are truthy, equality both ways
equals track-id equality; when both track ids are falsy and both store
ids truthy, equality both ways equals store-id equality.  In general it
is not symmetric, and because the library-id branch compares the left
operand's store id (None at that point) with the right operand's library
id, two tracks whose only populated identifier is a library id never
compare equal while the right operand's library id is populated. -/
theorem claim3_amended (a b : Track) :
    (truthy a.track_id = true → truthy b.track_id = true →
       Track.eq a b = Track.eq b a ∧
       (Track.eq a b = true ↔ a.track_id = b.track_id)) ∧
    (truthy a.track_id = false → truthy b.track_id = false →
     truthy a.store_id = true → truthy b.store_id = true →
       Track.eq a b = Track.eq b a ∧
       (Track.eq a b = true ↔ a.store_id = b.store_id)) ∧
    (truthy a.track_id = false → a.store_id = none → truthy a.id_ = true →
     truthy b.id_ = true → Track.eq a b = false) := by
  refine ⟨?_, ?_, ?_⟩
  · intro ha hb
    constructor
    · simp only [Track.eq, ha, hb, if_true]
      exact optStr_beq_comm a.track_id b.track_id
    · simp [Track.eq, ha]
  · intro ha hb ha2 hb2
    constructor
    · simp only [Track.eq, ha, hb, ha2, hb2, if_true, Bool.false_eq_true,
        if_false]
      exact optStr_beq_comm a.store_id b.store_id
    · simp [Track.eq, ha, ha2]
  · intro ha ha2 hid hbid
    have hsf : truthy a.store_id = false := by rw [ha2]; rfl
    cases hb : b.id_ with
    | none => rw [hb] at hbid; cases hbid
    | some s =>
        have h1 : Track.eq a b = (a.store_id == b.id_) := by
          simp [Track.eq, ha, hsf, hid]
        rw [h1, ha2, hb]
        rfl

/-- Witness for the amended claim C3 at the concrete tracks trackA and
trackC, both with truthy track ids. -/
theorem claim3_witness :
    truthy trackA.track_id = true ∧ truthy trackC.track_id = true ∧
    Track.eq trackA trackC = Track.eq trackC trackA :=
  ⟨by decide, by decide,
   ((claim3_amended trackA trackC).1 (by decide) (by decide)).1⟩

/-- Counterexample to claim C4: with a remote library that is empty, two
consecutive calls to get_all_tracks from a fresh state both issue a remote
fetch (the cached empty list is falsy, so the second call fetches again),
contradicting the at-most-one-fetch consequence. -/
theorem claim4_counterexample :
    (get_all_tracks (.ok []) ⟨none, none⟩).2.2 = true ∧
    (get_all_tracks (.ok [])
        (get_all_tracks (.ok []) ⟨none, none⟩).2.1).2.2 = true := by
  constructor <;> rfl

/-- Claim C4 amended: when the track cache holds a NONEMPTY list,
get_all_tracks returns it with no remote fetch; and whenever a call
returns a nonempty track list, an immediately following call returns the
same list from cache with no remote fetch (so two consecutive calls make
at most one fetch).  The restriction to nonempty lists is forced by the
counterexample: a cached empty list is falsy and is fetched again. -/
theorem claim4_amended (remote1 remote2 : Except PyErr (List TrackData))
    (st : GPState) (ts : List Track) :
    (∀ ts0, st.cached_tracks = some ts0 → ts0.isEmpty = false →
       get_all_tracks remote1 st = (.ok ts0, st, false)) ∧
    ((get_all_tracks remote1 st).1 = .ok ts → ts.isEmpty = false →
       get_all_tracks remote2 (get_all_tracks remote1 st).2.1
         = (.ok ts, (get_all_tracks remote1 st).2.1, false)) := by
  constructor
  · intro ts0 hc he
    simp [get_all_tracks, hc, he]
  · intro hok hne
    have hcache := get_all_tracks_ok remote1 st ts hok
    have hne2 : ts ≠ [] := by
      cases ts with
      | nil => cases hne
      | cons x xs => simp
    generalize hg : (get_all_tracks remote1 st).2.1 = st1 at hcache ⊢
    simp [get_all_tracks, hcache, hne2]

/-- Witness for the amended claim C4 at a concrete nonempty cached
state. -/
theorem claim4_witness :
    GPState.cached_tracks ⟨some [trackA], none⟩ = some [trackA] ∧
    ([trackA] : List Track).isEmpty = false ∧
    get_all_tracks (.ok []) ⟨some [trackA], none⟩
      = (.ok [trackA], ⟨some [trackA], none⟩, false) :=
  ⟨rfl, rfl,
   (claim4_amended (.ok []) (.ok []) ⟨some [trackA], none⟩ [trackA]).1
     [trackA] rfl rfl⟩

end Clay

namespace Clay

/-- Claim C5 (code bug): a playlist entry carrying only a bare track-id
that is absent from the populated library cache makes the whole playlist
fetch fail.  get_track_by_id returns None, .copy() on None raises
AttributeError, the exception aborts the entire conversion, the error
propagates out of get_all_user_playlist_contents, and the playlist cache
is left unpopulated — the missing reference is not handled in a way that
spares the rest of the fetch. -/
theorem claim5_crash :
    playlist_items_to_tracks (some [trackD]) [⟨none, "unknown"⟩]
      = .error .attributeError ∧
    (get_all_user_playlist_contents (.ok [sampleData])
        (.ok [samplePlaylistData]) ⟨none, none⟩).1
      = .error .attributeError ∧
    (get_all_user_playlist_contents (.ok [sampleData])
        (.ok [samplePlaylistData]) ⟨none, none⟩).2.cached_playlists
      = none := by
  refine ⟨rfl, rfl, rfl⟩

/-- Counterexample to claim C6: with an unpopulated (None) track cache,
get_track_by_id raises TypeError instead of returning the no-match
sentinel. -/
theorem claim6_counterexample :
    ¬ get_track_by_id (none : Option (List Track)) "x" = Except.ok none := by
  intro h
  simp [get_track_by_id] at h

/-- Claim C6 amended: with an unpopulated (None) cache, get_track_by_id
raises TypeError (iterating None); with a populated cache it returns the
no-match sentinel None when no cached track matches the identifier under
any of the three identifier kinds, and on a match it returns a cached
track whose library id, store id or track id equals the queried
identifier. -/
theorem claim6_amended (ts : List Track) (any_id : String) :
    get_track_by_id none any_id = .error .typeError ∧
    ((∀ t ∈ ts, t.matchesId any_id = false) →
       get_track_by_id (some ts) any_id = .ok none) ∧
    (∀ t, get_track_by_id (some ts) any_id = .ok (some t) →
       t ∈ ts ∧ (t.id_ = some any_id ∨ t.store_id = some any_id ∨
                 t.track_id = some any_id)) := by
  refine ⟨rfl, ?_, ?_⟩
  · intro hall
    simp only [get_track_by_id]
    rw [List.find?_eq_none.mpr]
    intro x hx
    simp [hall x hx]
  · intro t hok
    simp only [get_track_by_id, Except.ok.injEq] at hok
    have hmem := List.mem_of_find?_eq_some hok
    have hp := List.find?_some hok
    simp only [Track.matchesId, Bool.or_eq_true, beq_iff_eq] at hp
    refine ⟨hmem, ?_⟩
    rcases hp with (h1 | h2) | h3
    · exact Or.inl h1
    · exact Or.inr (Or.inl h2)
    · exact Or.inr (Or.inr h3)

/-- Witness for the amended claim C6: trackD does not match the query zz,
so the scan over a populated cache returns the sentinel. -/
theorem claim6_witness :
    (∀ t ∈ [trackD], t.matchesId "zz" = false) ∧
    get_track_by_id (some [trackD]) "zz" = .ok none :=
  ⟨by decide, (claim6_amended [trackD] "zz").2.1 (by decide)⟩

/-- Claim C8: login fires auth_state_changed, with the new boolean state
as payload, exactly when the authentication state sampled after the
logout-and-invalidate prologue differs from the state sampled after the
remote login; no auth event is fired when the state is unchanged.  The
caches are invalidated before the prior state is captured, and the remote
result is returned unchanged. -/
theorem claim8_login_event (a r b : Bool) (st : GPState) :
    authEvents (login a r b st).2.2
      = (if a ≠ b then [Event.auth_state_changed b] else []) ∧
    (login a r b st).2.1 = ⟨none, none⟩ ∧
    (login a r b st).1 = r := by
  cases a <;> cases b <;> simp [login, authEvents, List.filter]

/-- Counterexample to claim C9: get_all_tracks on a fresh state populates
the track cache and leaves the playlist cache cleared, so a public
operation does leave exactly one of the two caches populated. -/
theorem claim9_counterexample :
    ((get_all_tracks (.ok [sampleData]) ⟨none, none⟩).2.1.cached_tracks).isSome
      = true ∧
    ((get_all_tracks (.ok [sampleData])
        ⟨none, none⟩).2.1.cached_playlists).isSome = false := by
  constructor <;> rfl

/-- Claim C9 amended: the caches are not kept both-populated-or-both-
cleared (get_all_tracks populates only the track cache), but the
invalidation half of the claim holds: invalidate_caches clears both
caches, and a library membership mutation whose remote call reports
success (truthy result) clears both caches and fires the invalidation
event, for add and remove alike. -/
theorem claim9_amended (st : GPState) (rr : Except PyErr Bool)
    (hr : rr = .ok true) :
    (add_to_my_library rr st).2.1 = ⟨none, none⟩ ∧
    (add_to_my_library rr st).2.2 = [Event.caches_invalidated] ∧
    (remove_from_my_library rr st).2.1 = ⟨none, none⟩ ∧
    (remove_from_my_library rr st).2.2 = [Event.caches_invalidated] ∧
    (invalidate_caches st).1 = ⟨none, none⟩ ∧
    (invalidate_caches st).2 = [Event.caches_invalidated] := by
  subst hr
  simp [add_to_my_library, remove_from_my_library, invalidate_caches]

/-- Witness for the amended claim C9 at a concrete successful removal. -/
theorem claim9_witness :
    (Except.ok true : Except PyErr Bool) = .ok true ∧
    (remove_from_my_library (.ok true) ⟨some [trackA], some []⟩).2.1
      = ⟨none, none⟩ :=
  ⟨rfl, (claim9_amended ⟨some [trackA], some []⟩ (.ok true) rfl).2.2.1⟩

end Clay

namespace Clay

/-- Preservation of the one-directional cache dependency by
get_all_tracks. -/
theorem gat_preserves_invariant (rT : Except PyErr (List TrackData))
    (st : GPState) (hst : cacheInvariant st) :
    cacheInvariant (get_all_tracks rT st).2.1 := by
  intro hps
  rw [get_all_tracks_playlists_eq] at hps
  exact get_all_tracks_isSome rT st (hst hps)

/-- Preservation of the one-directional cache dependency by the build
branch of get_all_user_playlist_contents: the playlist cache is assigned
only after get_all_tracks has succeeded, and then the track cache holds
the returned list. -/
theorem build_preserves_invariant (rT : Except PyErr (List TrackData))
    (rP : Except PyErr (List PlaylistData)) (st : GPState)
    (hst : cacheInvariant st) :
    cacheInvariant (build_playlists rT rP st).2 := by
  unfold build_playlists
  cases hok : (get_all_tracks rT st).1 with
  | error e =>
      simp only [hok]
      exact gat_preserves_invariant rT st hst
  | ok ts =>
      cases rP with
      | error e =>
          simp only [hok]
          exact gat_preserves_invariant rT st hst
      | ok pds =>
          cases hm : playlistsFromDataMany
              (get_all_tracks rT st).2.1.cached_tracks pds with
          | error e =>
              simp only [hok, hm]
              exact gat_preserves_invariant rT st hst
          | ok ps =>
              simp only [hok, hm]
              intro _
              show ({ (get_all_tracks rT st).2.1 with
                        cached_playlists := some ps }).cached_tracks.isSome
                   = true
              have := get_all_tracks_ok rT st ts hok
              simp [this]

/-- Claim C10: the one-directional cache dependency — a populated playlist
cache implies a populated track cache — is preserved by every public
client operation: get_all_tracks, get_all_user_playlist_contents
(including every partial-failure path, since the playlist cache is
assigned only after the track cache has been filled), invalidate_caches,
login, add_to_my_library and remove_from_my_library, for every remote
outcome. -/
theorem claim10_invariant (st : GPState) (hst : cacheInvariant st) :
    (∀ rT, cacheInvariant (get_all_tracks rT st).2.1) ∧
    (∀ rT rP, cacheInvariant (get_all_user_playlist_contents rT rP st).2) ∧
    cacheInvariant (invalidate_caches st).1 ∧
    (∀ a r b, cacheInvariant (login a r b st).2.1) ∧
    (∀ rr, cacheInvariant (add_to_my_library rr st).2.1) ∧
    (∀ rr, cacheInvariant (remove_from_my_library rr st).2.1) := by
  refine ⟨?_, ?_, ?_, ?_, ?_, ?_⟩
  · intro rT
    exact gat_preserves_invariant rT st hst
  · intro rT rP
    unfold get_all_user_playlist_contents
    cases hp : st.cached_playlists with
    | none =>
        simp only []
        exact build_preserves_invariant rT rP st hst
    | some ps =>
        cases ps with
        | nil =>
            simp only [List.isEmpty_nil, if_true]
            exact build_preserves_invariant rT rP st hst
        | cons p ps =>
            simp only [List.isEmpty_cons, Bool.false_eq_true, if_false]
            exact hst
  · intro hps
    cases hps
  · intro a r b
    have hstate : (login a r b st).2.1 = ⟨none, none⟩ := by
      unfold login
      split <;> rfl
    rw [hstate]
    intro hps
    cases hps
  · intro rr
    cases rr with
    | error e => exact hst
    | ok r =>
        cases r with
        | true =>
            intro hps
            cases hps
        | false => exact hst
  · intro rr
    cases rr with
    | error e => exact hst
    | ok r =>
        cases r with
        | true =>
            intro hps
            cases hps
        | false => exact hst

/-- Witness for claim C10 at the fresh state with both caches cleared. -/
theorem claim10_witness :
    cacheInvariant (⟨none, none⟩ : GPState) ∧
    cacheInvariant (invalidate_caches ⟨none, none⟩).1 :=
  have h0 : cacheInvariant (⟨none, none⟩ : GPState) := by
    intro hps
    cases hps
  ⟨h0, (claim10_invariant ⟨none, none⟩ h0).2.2.1⟩

end Clay

namespace Clay

/-- Claim C1: for every playlist response processed by reconciliation and
every entry in it carrying only a bare track-id whose id is found in the
populated library cache, the resulting track sequence preserves the
original entry order (one produced address per entry, in position); the
track produced for the entry lives in a fresh cell that is not one of the
cached library cells, so mutating it cannot alter the cached instance
(writing any track through the produced address leaves every cache cell
unchanged, and reconciliation itself left them unchanged); the produced
track's track_id equals the entry's track-id, and all its other fields —
the other identifier fields included — equal those of the looked-up
library track. -/
theorem claim1_reconciliation (cache : List Nat) (h : Heap)
    (entries : List PlaylistEntry) (i : Nat) (tid : String) (a0 : Nat)
    (res : List Nat) (hFin : Heap)
    (hb : ∀ c ∈ cache, c < h.length)
    (he : entries[i]? = some ⟨none, tid⟩)
    (hfound : get_track_by_idH h cache tid = some a0)
    (hrun : playlist_items_to_tracksH cache h entries = .ok (res, hFin)) :
    res.length = entries.length ∧
    ∃ a, res[i]? = some a ∧ a ∉ cache ∧
      heapGet hFin a = { heapGet h a0 with track_id := some tid } ∧
      (∀ c ∈ cache, heapGet hFin c = heapGet h c) ∧
      (∀ t c, c ∈ cache → heapGet (hFin.set a t) c = heapGet hFin c) := by
  obtain ⟨hlen, hle, hpres, haddr, hcontent⟩ :=
    runH_spec cache entries h res hFin hb hrun
  have hi : i < entries.length := (List.getElem?_eq_some_iff.mp he).1
  obtain ⟨a, ha⟩ : ∃ a, res[i]? = some a :=
    ⟨_, List.getElem?_eq_getElem (by omega)⟩
  obtain ⟨hge, hlt⟩ := haddr i a ha
  obtain ⟨a0x, hl0, hcell⟩ := hcontent i ⟨none, tid⟩ a he rfl ha
  rw [hfound] at hl0
  injection hl0 with hl1
  subst hl1
  refine ⟨hlen, a, ha, ?_, hcell, ?_, ?_⟩
  · intro hmem
    have := hb a hmem
    omega
  · intro c hc
    exact hpres c (hb c hc)
  · intro t c hc
    have hne : a ≠ c := by
      have := hb c hc
      omega
    exact heapGet_set_ne hFin a c t hne

/-- Witness for claim C1: a library cache holding one track at address 0
(store id X), one bare playlist entry referencing X; reconciliation
allocates the copy at address 1 with track_id overwritten to X. -/
theorem claim1_witness :
    (∀ c ∈ [0], c < ([libTrack] : Heap).length) ∧
    (([(⟨none, "X"⟩ : PlaylistEntry)] : List PlaylistEntry)[0]?
       = some ⟨none, "X"⟩) ∧
    get_track_by_idH [libTrack] [0] "X" = some 0 ∧
    ∃ a, ([1] : List Nat)[0]? = some a ∧ a ∉ [0] ∧
      heapGet [libTrack, { libTrack with track_id := some "X" }] a
        = { heapGet [libTrack] 0 with track_id := some "X" } ∧
      (∀ c ∈ [0],
         heapGet [libTrack, { libTrack with track_id := some "X" }] c
           = heapGet [libTrack] c) ∧
      (∀ t c, c ∈ [0] →
         heapGet
           (([libTrack, { libTrack with track_id := some "X" }] : Heap).set
             a t) c
           = heapGet [libTrack, { libTrack with track_id := some "X" }] c) :=
  ⟨by decide, rfl, rfl,
   (claim1_reconciliation [0] [libTrack] [⟨none, "X"⟩] 0 "X" 0 [1]
      [libTrack, { libTrack with track_id := some "X" }]
      (by decide) rfl rfl rfl).2⟩

end Clay
